/-
Verification of the ai-voice-concierge call-screening service.

This file gives a shallow embedding of the webhook handlers in
`src/main.py`, the bot request construction in `src/bot.py` /
`src/prompts.py`, and the store operations in `src/database.py`,
together with theorems settling the specification claims.

Strings are modelled as `List Char` (named `Str`), with the Python
string operations (`in`, `.replace(old, "")`, `.strip()`, `.startswith`,
slicing) defined to mirror CPython semantics on the fragments the code
uses.  Timestamps are modelled as an abstract logical clock (`Nat`);
database row ids are assigned sequentially as in the SQLite backend.
-/
import Mathlib

set_option maxRecDepth 10000

/-- Python `str` values, modelled as lists of characters. -/
abbrev Str := List Char

namespace Concierge

/-! ## Python string primitives -/

/-- Python `s.startswith(pat)`: `pat` is a prefix of `s`. -/
def strStartsWith : Str → Str → Bool
  | _, [] => true
  | [], _ :: _ => false
  | c :: s, p :: ps => c == p && strStartsWith s ps

/-- Python `pat in s`: `pat` occurs as a contiguous substring of `s`. -/
def occurs (pat : Str) : Str → Bool
  | [] => pat.isEmpty
  | c :: rest => strStartsWith (c :: rest) pat || occurs pat rest

/-- Worker for `removeAll`, structurally recursive on a fuel argument
that starts at the length of the string; a non-empty match consumes at
least one character, so fuel never runs out before the string does. -/
def removeAllAux (pat : Str) : Nat → Str → Str
  | _, [] => []
  | 0, s => s
  | fuel + 1, c :: rest =>
    if pat ≠ [] ∧ strStartsWith (c :: rest) pat then
      removeAllAux pat fuel ((c :: rest).drop pat.length)
    else
      c :: removeAllAux pat fuel rest

/-- Python `s.replace(pat, "")` for a non-empty `pat`: remove every
left-to-right non-overlapping occurrence of `pat` from `s`. -/
def removeAll (pat : Str) (s : Str) : Str :=
  removeAllAux pat s.length s

/-- Python `s.strip()` (whitespace variant, as the code uses it). -/
def strip (s : Str) : Str :=
  ((s.dropWhile Char.isWhitespace).reverse.dropWhile Char.isWhitespace).reverse

/-- Truthiness of a Python string: non-empty. -/
def strTruthy (s : Str) : Bool := !s.isEmpty

/-! ## `database.normalize_phone_number` (src/database.py:384-398)

`digits = re.sub(r'\D', '', phone_number)` keeps only digit characters;
then the branches on `digits` are exactly those of the source. -/

/-- Embedding of `normalize_phone_number` from `src/database.py`. -/
def normalize_phone_number (phone : Str) : Str :=
  let digits := phone.filter Char.isDigit
  if digits.head? = some '1' ∧ digits.length = 11 then
    '+' :: digits
  else if digits.length = 10 then
    '+' :: '1' :: digits
  else if digits.head? = some '+' ∧ digits.length > 1 then
    digits
  else
    '+' :: digits

/-! ## Decision markers and reply parsing (src/main.py:311-356) -/

/-- The literal transfer marker `{TRANSFER}`. -/
def TRANSFER_MARKER : Str := "\x7bTRANSFER\x7d".toList

/-- The literal end-call marker `{END CALL}`. -/
def END_CALL_MARKER : Str := "\x7bEND CALL\x7d".toList

/-- The three routing decisions that `twilio_process_ai` can take on a
model reply. -/
inductive Decision
  | transfer
  | endCall
  | cont
deriving DecidableEq, Repr

/-- The reply-branching logic of `twilio_process_ai` (src/main.py:311-356):
`"{TRANSFER}" in ai_reply` is checked first, then `"{END CALL}" in
ai_reply`; the spoken text is `ai_reply.replace(marker, "").strip()` with
only the matched marker removed, and `ai_reply` unchanged in the continue
branch. -/
def parseReply (r : Str) : Decision × Str :=
  if occurs TRANSFER_MARKER r then
    (Decision.transfer, strip (removeAll TRANSFER_MARKER r))
  else if occurs END_CALL_MARKER r then
    (Decision.endCall, strip (removeAll END_CALL_MARKER r))
  else
    (Decision.cont, r)

/-- The detection rule exactly as the spec words it (spec §4.3): literal
`{TRANSFER}` present → transfer; else `{END CALL}` present → end; else
continue. -/
def specDecision (r : Str) : Decision :=
  if occurs TRANSFER_MARKER r then Decision.transfer
  else if occurs END_CALL_MARKER r then Decision.endCall
  else Decision.cont

/-! ## Durable store (src/database.py) -/

/-- A row of the `calls` table.  `start_time`/`end_time` are logical
clock ticks standing for the ISO timestamps the code writes. -/
structure CallRecord where
  id : Nat
  caller_id : Str
  start_time : Nat
  end_time : Option Nat
  final_decision : Option Str
  summary : Option Str
  outcome : Option Str
deriving DecidableEq, Repr

/-- A row of the `conversation` table.  `turn_index` is an `Int` because
the handler logs at Python `turn_index - 1`, which is `-1` on the first
exchange. -/
structure TurnRecord where
  call_id : Nat
  turn_index : Int
  speaker : Str
  text : Str
deriving DecidableEq, Repr

/-- A row of the `exception_phone_numbers` table (the allow-list). -/
structure ExceptionEntry where
  id : Nat
  phone_number : Str
  contact_name : Str
  category : Str
  added_date : Str
  is_active : Bool
deriving DecidableEq, Repr

/-- The durable store: the three tables the claims touch. -/
structure DB where
  calls : List CallRecord
  turns : List TurnRecord
  exceptions : List ExceptionEntry
deriving DecidableEq, Repr

/-- Embedding of `log_new_call` (src/database.py:213-247): insert a new `calls` row
with `start_time = now` and null terminal fields; return the updated
store and the generated id (SQLite `AUTOINCREMENT`, modelled as row
count + 1 since rows are never deleted). -/
def log_new_call (db : DB) (caller_id : Str) (now : Nat) : DB × Nat :=
  let id := db.calls.length + 1
  let record : CallRecord :=
    { id := id
      caller_id := caller_id
      start_time := now
      end_time := none
      final_decision := none
      summary := none
      outcome := none }
  ({ db with calls := db.calls ++ [record] }, id)

/-- Embedding of `log_conversation_turn` (src/database.py:249-272): append a
`conversation` row. -/
def log_conversation_turn (db : DB) (call_id : Nat) (turn_index : Int)
    (speaker : Str) (text : Str) : DB :=
  let record : TurnRecord :=
    { call_id := call_id
      turn_index := turn_index
      speaker := speaker
      text := text }
  { db with turns := db.turns ++ [record] }

/-- Embedding of `log_final_decision` (src/database.py:274-301): `UPDATE calls SET
end_time, final_decision, summary, outcome WHERE id = call_id`.  Note the
SQL always writes all four columns, so omitted `summary`/`outcome`
arguments (Python default `None`) overwrite with null. -/
def log_final_decision (db : DB) (call_id : Nat) (final_decision : Str)
    (summary : Option Str) (outcome : Option Str) (now : Nat) : DB :=
  { db with calls := db.calls.map (fun c =>
      if c.id = call_id then
        { c with
            end_time := some now
            final_decision := some final_decision
            summary := summary
            outcome := outcome }
      else c) }

/-- Embedding of `is_exception_phone_number` (src/database.py:400-440): normalize,
then `SELECT ... WHERE phone_number = ? AND is_active = 1` (first
matching row). -/
def is_exception_phone_number (db : DB) (phone_number : Str) : Option ExceptionEntry :=
  let normalized := normalize_phone_number phone_number
  db.exceptions.find? (fun e => e.phone_number = normalized && e.is_active)

/-- Embedding of `remove_exception_phone_number` (src/database.py:484-517): normalize,
then `UPDATE exception_phone_numbers SET is_active = 0 WHERE phone_number
= ?` (no `is_active` condition), returning `rowcount > 0` — SQLite counts
every row matched by the WHERE clause, including rows already inactive. -/
def remove_exception_phone_number (db : DB) (phone_number : Str) : DB × Bool :=
  let normalized := normalize_phone_number phone_number
  let rows_affected := db.exceptions.countP (fun e => e.phone_number = normalized)
  ({ db with exceptions := db.exceptions.map (fun e =>
      if e.phone_number = normalized then { e with is_active := false } else e) },
   rows_affected > 0)

/-! ## Bot request construction (src/bot.py, src/prompts.py) -/

/-- One chat message, as built by `VoiceConciergeBot.get_response`.
`content` is optional because Python permits `None` there. -/
structure Message where
  role : Str
  content : Option Str
deriving DecidableEq, Repr

/-- Embedding of `get_system_prompt` (src/prompts.py:55-134).  The function body is a
bare `return` (line 79); the screening-policy text that follows it sits
in comments and in an unreachable expression statement after the
`return`, so the function returns Python `None`. -/
def get_system_prompt : Option Str := none

/-- The request construction of `VoiceConciergeBot.get_response`
(src/bot.py:100-104): `[{"role": "system", "content": system_prompt}] +
self.history`. -/
def buildRequest (history : List Message) : List Message :=
  { role := "system".toList, content := get_system_prompt } :: history

/-! ## Session registry (src/main.py:42, 119-123, 183) -/

/-- Per-call session state: the fields of the `sessions[session_id]`
dict plus the bot's conversation history (`VoiceConciergeBot.history`,
src/bot.py:60). -/
structure Session where
  turn_index : Nat
  call_id : Nat
  pending_speech : Option Str
  history : List Message
deriving DecidableEq, Repr

/-- The global in-memory `sessions` dict, as an association list. -/
abbrev Sessions := List (Str × Session)

/-- Dict lookup `sessions[sid]`. -/
def lookupSession (ss : Sessions) (sid : Str) : Option Session :=
  (ss.find? (fun p => p.1 = sid)).map Prod.snd

/-- Dict update of an existing key. -/
def setSession (ss : Sessions) (sid : Str) (s : Session) : Sessions :=
  ss.map (fun p => if p.1 = sid then (p.1, s) else p)

/-- A fresh session as created at call start and on session synthesis:
`{"bot": bot, "turn_index": 0, "call_id": call_id}`. -/
def sessionNew (call_id : Nat) : Session :=
  { turn_index := 0
    call_id := call_id
    pending_speech := none
    history := [] }

/-! ## Voice scripts (the TwiML the handlers emit) -/

/-- TwiML verbs the handlers emit.  Every `<Gather>` in the source holds
at most one `<Say>`, modelled as `innerSay`; `<Dial>`'s `record` and
`answerOnBridge` attributes are constant in the source and omitted. -/
inductive Verb
  | say (text : Str)
  | gather (timeout : Nat) (action : Str) (innerSay : Option Str)
  | redirect (url : Str)
  | dial (timeout : Option Nat) (action : Option Str) (number : Str)
  | hangup
deriving DecidableEq, Repr

/-- Python `.replace("&", "&amp;")` applied to every callback URL. -/
def ampEscape : Str → Str
  | [] => []
  | c :: rest =>
    if c = '&' then '&' :: 'a' :: 'm' :: 'p' :: ';' :: ampEscape rest
    else c :: ampEscape rest

/-- Decimal rendering of a retry counter. -/
def natStr (n : Nat) : Str := (toString n).toList

/-- The address `f"/twilio/ai-response?session_id={sid}&retry={r}".replace("&", "&amp;")`. -/
def aiResponseUrl (sid : Str) (retry : Nat) : Str :=
  ampEscape ("/twilio/ai-response?session_id=".toList ++ sid ++ "&retry=".toList ++ natStr retry)

/-- The address `f"/twilio/process-ai?session_id={sid}".replace("&", "&amp;")`. -/
def processAiUrl (sid : Str) : Str :=
  ampEscape ("/twilio/process-ai?session_id=".toList ++ sid)

/-- The address `f"/twilio/transfer-fallback?session_id={sid}".replace("&", "&amp;")`. -/
def transferFallbackUrl (sid : Str) : Str :=
  ampEscape ("/twilio/transfer-fallback?session_id=".toList ++ sid)

/-- The constant `REAL_PHONE_NUMBER` (src/config.py:91) is a configuration secret
loaded from the environment; modelled as an abstract constant value. -/
def REAL_PHONE_NUMBER : Str := "+1XXXXXXXXXX".toList

/-- Spoken texts used by the handlers (src/main.py), verbatim. -/
def transferringText : Str := "Transferring you now.".toList

def greetingText : Str :=
  ("Hi, I am a virtual assistant. Tell me how can Vansh help you today? " ++
   "I will analyze your response and see if I can get a hold of him.").toList

def oneMomentText : Str := "One moment.".toList

def didntHearText : Str :=
  "I didn\x27t hear anything. Can you please repeat how I can help?".toList

def stillDidntHearText : Str :=
  "Sorry, I still didn\x27t hear anything. Goodbye!".toList

def errorText : Str := "Sorry, there was an error. Goodbye!".toList

def transferFailedText : Str :=
  ("Unfortunately Vansh is on another call. Please text him and he will " ++
   "get back to you as soon as possible.").toList

/-- The generic except-block script emitted by the handlers. -/
def errorScript : List Verb := [Verb.say errorText]

/-! ## Application state and handlers (src/main.py) -/

/-- The process state the handlers read and write: the in-memory session
registry, the durable store, and a logical clock supplying `utcnow`. -/
structure AppState where
  sessions : Sessions
  db : DB
  now : Nat
deriving DecidableEq, Repr

/-- What one webhook invocation produces: the successor state, the TwiML
script returned to the carrier, and whether the language model was
invoked during the request. -/
structure HandlerResult where
  state : AppState
  script : List Verb
  modelInvoked : Bool
deriving DecidableEq, Repr

/-- Embedding of `twilio_voice` (src/main.py:65-139).  `callerFrom` is the form's
`From` field; `newToken` is the `uuid.uuid4()` value the handler would
generate for a non-exception caller. -/
def twilio_voice (st : AppState) (callerFrom : Str) (newToken : Str) : HandlerResult :=
  let r := log_new_call st.db callerFrom st.now
  let db1 := r.1
  let call_id := r.2
  match is_exception_phone_number db1 callerFrom with
  | some _ =>
    let db2 := log_final_decision db1 call_id "transferred_exception".toList
        (some "Exception contact, direct transfer.".toList)
        (some "exception_transfer".toList) st.now
    { state := { st with db := db2 }
      script := [Verb.say transferringText, Verb.dial none none REAL_PHONE_NUMBER]
      modelInvoked := false }
  | none =>
    let url := aiResponseUrl newToken 0
    { state :=
        { st with
            db := db1
            sessions := st.sessions ++ [(newToken, sessionNew call_id)] }
      script := [Verb.say greetingText, Verb.gather 6 url none, Verb.redirect url]
      modelInvoked := false }

/-- Session resolution in `twilio_ai_response` (src/main.py:177-183):
a missing or unknown token synthesizes a fresh session and logs a brand
new call via `log_new_call`. -/
def resolveOrCreate (st : AppState) (sidParam : Option Str) (callerFrom newToken : Str) :
    Str × Session × AppState :=
  match sidParam with
  | some sid =>
    match lookupSession st.sessions sid with
    | some sess => (sid, sess, st)
    | none =>
      let r := log_new_call st.db callerFrom st.now
      (newToken, sessionNew r.2,
        { st with
            db := r.1
            sessions := st.sessions ++ [(newToken, sessionNew r.2)] })
  | none =>
    let r := log_new_call st.db callerFrom st.now
    (newToken, sessionNew r.2,
      { st with
          db := r.1
          sessions := st.sessions ++ [(newToken, sessionNew r.2)] })

/-- Embedding of `twilio_ai_response` (src/main.py:141-235).  `speechResult` is the
form's `SpeechResult` (empty string when absent), `retry` the query
parameter. -/
def twilio_ai_response (st : AppState) (speechResult callerFrom : Str)
    (sidParam : Option Str) (retry : Nat) (newToken : Str) : HandlerResult :=
  let r := resolveOrCreate st sidParam callerFrom newToken
  let sid := r.1
  let sess := r.2.1
  let st1 := r.2.2
  if strTruthy (strip speechResult) then
    let sess1 := { sess with pending_speech := some speechResult }
    { state := { st1 with sessions := setSession st1.sessions sid sess1 }
      script := [Verb.say oneMomentText, Verb.redirect (processAiUrl sid)]
      modelInvoked := false }
  else if retry = 0 then
    let url := aiResponseUrl sid 1
    { state := st1
      script := [Verb.gather 5 url (some didntHearText), Verb.redirect url]
      modelInvoked := false }
  else
    let db2 :=
      if sess.call_id ≠ 0 then
        log_final_decision st1.db sess.call_id "ended_no_speech".toList none none st1.now
      else st1.db
    { state := { st1 with db := db2 }
      script := [Verb.say stillDidntHearText]
      modelInvoked := false }

/-- The re-prompt response of `twilio_process_ai` when the buffered
speech is missing or blank (src/main.py:289-299). -/
def repromptResult (st : AppState) (sid : Str) : HandlerResult :=
  let url := aiResponseUrl sid 1
  { state := st
    script := [Verb.gather 5 url (some didntHearText), Verb.redirect url]
    modelInvoked := false }

/-- The summary `f"Call transferred. User said: {user_speech[:100]}..."`. -/
def transferSummary (u : Str) : Str :=
  "Call transferred. User said: ".toList ++ u.take 100 ++ "...".toList

/-- The summary `f"Call ended. User said: {user_speech[:100]}..."`. -/
def endSummary (u : Str) : Str :=
  "Call ended. User said: ".toList ++ u.take 100 ++ "...".toList

/-- Embedding of `twilio_process_ai` (src/main.py:237-370).  The model invocation is
passed in as `modelResult`: `Except.error` stands for a raised
transport/timeout error inside `VoiceConciergeBot.get_response`
(src/bot.py:110-122 has no try/except of its own, so the exception
reaches the endpoint's generic handler), `Except.ok r` for a reply text
`r`. -/
def twilio_process_ai (st : AppState) (sidParam : Option Str)
    (modelResult : Except Unit Str) : HandlerResult :=
  match sidParam with
  | none => { state := st, script := errorScript, modelInvoked := false }
  | some sid =>
    match lookupSession st.sessions sid with
    | none => { state := st, script := errorScript, modelInvoked := false }
    | some sess =>
      -- src/main.py:267-271: pop the buffered speech before validation
      let user_speech := sess.pending_speech
      let sess1 := { sess with pending_speech := none }
      let st1 := { st with sessions := setSession st.sessions sid sess1 }
      match user_speech with
      | none => repromptResult st1 sid
      | some u =>
        if strTruthy (strip u) = false then repromptResult st1 sid
        else
          -- src/main.py:303-305: append the user turn, bump the counter,
          -- then call the model; the local `turn_index` was read earlier
          let sess2 :=
            { sess1 with
                history := sess1.history ++ [{ role := "user".toList, content := some u }]
                turn_index := sess1.turn_index + 1 }
          let st2 := { st1 with sessions := setSession st1.sessions sid sess2 }
          let t : Int := (sess.turn_index : Int)
          match modelResult with
          | Except.error _ =>
            { state := st2, script := errorScript, modelInvoked := true }
          | Except.ok ai_reply =>
            let sess3 :=
              { sess2 with
                  history := sess2.history ++
                    [{ role := "assistant".toList, content := some ai_reply }] }
            let st3 := { st2 with sessions := setSession st2.sessions sid sess3 }
            if occurs TRANSFER_MARKER ai_reply then
              let clean_reply := strip (removeAll TRANSFER_MARKER ai_reply)
              let db4 :=
                if sess.call_id ≠ 0 then
                  log_final_decision
                    (log_conversation_turn
                      (log_conversation_turn st3.db sess.call_id (t - 1) "user".toList u)
                      sess.call_id (t - 1) "bot".toList ai_reply)
                    sess.call_id "transferred".toList (some (transferSummary u))
                    (some "transferred".toList) st3.now
                else st3.db
              { state := { st3 with db := db4 }
                script := [Verb.say clean_reply,
                  Verb.dial (some 30) (some (transferFallbackUrl sid)) REAL_PHONE_NUMBER]
                modelInvoked := true }
            else if occurs END_CALL_MARKER ai_reply then
              let clean_reply := strip (removeAll END_CALL_MARKER ai_reply)
              let db4 :=
                if sess.call_id ≠ 0 then
                  log_final_decision
                    (log_conversation_turn
                      (log_conversation_turn st3.db sess.call_id (t - 1) "user".toList u)
                      sess.call_id (t - 1) "bot".toList ai_reply)
                    sess.call_id "completed".toList (some (endSummary u))
                    (some "ended".toList) st3.now
                else st3.db
              { state := { st3 with db := db4 }
                script := [Verb.say clean_reply]
                modelInvoked := true }
            else
              let url := aiResponseUrl sid 0
              let db4 :=
                if sess.call_id ≠ 0 then
                  log_conversation_turn
                    (log_conversation_turn st3.db sess.call_id (t - 1) "user".toList u)
                    sess.call_id (t - 1) "bot".toList ai_reply
                else st3.db
              { state := { st3 with db := db4 }
                script := [Verb.gather 6 url (some ai_reply), Verb.redirect url]
                modelInvoked := true }

/-- Embedding of `twilio_transfer_fallback` (src/main.py:372-417).  `dialCallStatus`
is the form's `DialCallStatus`.  Note the source logs
`transfer_failed_<status>` whenever the session yields a call id,
*before* testing whether the status is `completed`. -/
def twilio_transfer_fallback (st : AppState) (sidParam : Option Str)
    (dialCallStatus : Str) : HandlerResult :=
  let call_id : Nat :=
    match sidParam with
    | some sid =>
      match lookupSession st.sessions sid with
      | some sess => sess.call_id
      | none => 0
    | none => 0
  let db1 :=
    if call_id ≠ 0 then
      log_final_decision st.db call_id ("transfer_failed_".toList ++ dialCallStatus)
        none none st.now
    else st.db
  let script :=
    if dialCallStatus = "completed".toList then
      [Verb.hangup]
    else
      [Verb.say transferFailedText, Verb.hangup]
  { state := { st with db := db1 }, script := script, modelInvoked := false }

/-! ## Concrete fixtures used by witnesses and counterexamples -/

/-- A sample caller id in E.164 form. -/
def egCaller : Str := "+15550001111".toList

/-- A sample session token. -/
def egTok : Str := "tok".toList

/-- A second, fresh session token. -/
def egTok2 : Str := "tok2".toList

/-- The spec's sample urgent utterance. -/
def egSpeech : Str := "My house is on fire, I need Vansh now".toList

/-- A well-formed transfer reply from the model. -/
def egTransferReply : Str :=
  "I will connect you to Vansh right away. \x7bTRANSFER\x7d".toList

/-- A malformed model reply carrying both markers. -/
def egBothReply : Str :=
  "Connecting you. \x7bTRANSFER\x7d \x7bEND CALL\x7d".toList

/-- A session with one buffered utterance awaiting processing. -/
def egSessionPending : Session :=
  { turn_index := 1
    call_id := 1
    pending_speech := some egSpeech
    history := [{ role := "user".toList, content := some egSpeech }] }

/-- A session with no buffered speech. -/
def egSessionIdle : Session :=
  { turn_index := 1
    call_id := 1
    pending_speech := none
    history := [] }

/-- An open call record as written at call start. -/
def egCall : CallRecord :=
  { id := 1
    caller_id := egCaller
    start_time := 0
    end_time := none
    final_decision := none
    summary := none
    outcome := none }

/-- A call record already finalized as `transferred`. -/
def egCallTransferred : CallRecord :=
  { id := 1
    caller_id := egCaller
    start_time := 0
    end_time := some 3
    final_decision := some "transferred".toList
    summary := some (transferSummary egSpeech)
    outcome := some "transferred".toList }

/-- A store holding just the open call. -/
def egDBOneCall : DB :=
  { calls := [egCall], turns := [], exceptions := [] }

/-- State mid-call: one session with buffered speech, one open call. -/
def egStateP : AppState :=
  { sessions := [(egTok, egSessionPending)], db := egDBOneCall, now := 7 }

/-- State mid-call with no buffered speech. -/
def egStateIdle : AppState :=
  { sessions := [(egTok, egSessionIdle)], db := egDBOneCall, now := 7 }

/-- State after a transfer was emitted and finalized. -/
def egStateT : AppState :=
  { sessions := [(egTok, egSessionIdle)]
    db := { calls := [egCallTransferred], turns := [], exceptions := [] }
    now := 9 }

/-- An active allow-list entry for `+15551234567`. -/
def egActiveEntry : ExceptionEntry :=
  { id := 1
    phone_number := "+15551234567".toList
    contact_name := "Mom".toList
    category := "family".toList
    added_date := "2024-01-01".toList
    is_active := true }

/-- The same allow-list entry, soft-deleted. -/
def egInactiveEntry : ExceptionEntry :=
  { id := 1
    phone_number := "+15551234567".toList
    contact_name := "Mom".toList
    category := "family".toList
    added_date := "2024-01-01".toList
    is_active := false }

/-- A store whose allow-list holds one active entry. -/
def egStateAllow : AppState :=
  { sessions := []
    db := { calls := [], turns := [], exceptions := [egActiveEntry] }
    now := 3 }

/-- A store whose allow-list holds only the soft-deleted entry. -/
def egDBInactive : DB :=
  { calls := [], turns := [], exceptions := [egInactiveEntry] }

end Concierge

open Concierge

/-! ## Helper lemmas -/

theorem filter_isDigit_idem (l : Str) :
    (l.filter Char.isDigit).filter Char.isDigit = l.filter Char.isDigit := by
  induction l with
  | nil => rfl
  | cons c rest ih =>
    by_cases h : Char.isDigit c
    · simp [List.filter, h, ih]
    · simp [List.filter, h, ih]

theorem filter_isDigit_plus (l : Str) :
    ('+' :: l).filter Char.isDigit = l.filter Char.isDigit := by
  simp [List.filter]

theorem filter_isDigit_one (l : Str) :
    ('1' :: l).filter Char.isDigit = '1' :: l.filter Char.isDigit := by
  simp [List.filter]

/-- Idempotence of `normalize_phone_number`, by case analysis on the
digit filtration of the input. -/
theorem normalize_phone_number_idem (x : Str) :
    normalize_phone_number (normalize_phone_number x) = normalize_phone_number x := by
  simp only [normalize_phone_number]
  have hdd : (x.filter Char.isDigit).filter Char.isDigit = x.filter Char.isDigit :=
    filter_isDigit_idem x
  by_cases hA : (x.filter Char.isDigit).head? = some '1' ∧ (x.filter Char.isDigit).length = 11
  · rw [if_pos hA, filter_isDigit_plus, hdd, if_pos hA]
  · by_cases hB : (x.filter Char.isDigit).length = 10
    · rw [if_neg hA, if_pos hB, filter_isDigit_plus, filter_isDigit_one, hdd]
      have hA2 : (('1' : Char) :: x.filter Char.isDigit).head? = some '1' ∧
          (('1' : Char) :: x.filter Char.isDigit).length = 11 :=
        ⟨rfl, by simp [List.length_cons, hB]⟩
      rw [if_pos hA2]
    · by_cases hC : (x.filter Char.isDigit).head? = some '+' ∧
          (x.filter Char.isDigit).length > 1
      · rw [if_neg hA, if_neg hB, if_pos hC, hdd, if_neg hA, if_neg hB, if_pos hC]
      · rw [if_neg hA, if_neg hB, if_neg hC, filter_isDigit_plus, hdd,
          if_neg hA, if_neg hB, if_neg hC]

/-- Mapping a function that fixes every element of a list is the
identity. -/
theorem list_map_id_of {α : Type} (l : List α) (f : α → α) (h : ∀ a ∈ l, f a = a) :
    l.map f = l := by
  induction l with
  | nil => rfl
  | cons a t ih =>
    simp only [List.map_cons, h a (List.mem_cons_self a t)]
    rw [ih]
    intro b hb
    exact h b (List.mem_cons_of_mem a hb)

/-! ## Claim theorems -/

/-- C7: `normalize_phone_number` is idempotent, and the four sample inputs
"5551234567", "+15551234567", "15551234567", "(555) 123-4567" all map to
the same canonical value "+15551234567". -/
theorem C7_normalize_idempotent_and_canonical :
    (∀ x : Str, normalize_phone_number (normalize_phone_number x) =
        normalize_phone_number x) ∧
    normalize_phone_number "5551234567".toList = "+15551234567".toList ∧
    normalize_phone_number "+15551234567".toList = "+15551234567".toList ∧
    normalize_phone_number "15551234567".toList = "+15551234567".toList ∧
    normalize_phone_number "(555) 123-4567".toList = "+15551234567".toList := by
  refine ⟨normalize_phone_number_idem, ?_, ?_, ?_, ?_⟩ <;> decide

/-- C1 counterexample: on the malformed reply carrying both markers, the
processing step takes the transfer branch but speaks the reply with only
`\x7bTRANSFER\x7d` removed — the spoken text still contains
`\x7bEND CALL\x7d` and differs from the text with both markers stripped,
contrary to the claim. -/
theorem C1_counterexample :
    (twilio_process_ai egStateP (some egTok) (Except.ok egBothReply)).script.head? =
      some (Verb.say (parseReply egBothReply).2) ∧
    (parseReply egBothReply).1 = Decision.transfer ∧
    occurs END_CALL_MARKER (parseReply egBothReply).2 = true ∧
    (parseReply egBothReply).2 ≠
      strip (removeAll END_CALL_MARKER (removeAll TRANSFER_MARKER egBothReply)) := by
  decide

/-- C1 (amended): for every model reply `r`, the processing step's branch
agrees with the spec's detection rule (transfer priority included), and
the spoken text is: on transfer, `r` with only `\x7bTRANSFER\x7d`
occurrences removed and trimmed (so `\x7bEND CALL\x7d` may survive when
both markers are present); on end, `r` with `\x7bEND CALL\x7d` removed
and trimmed; on continue, `r` unchanged. -/
theorem C1_amended (st : AppState) (sid u r : Str) (sess : Session)
    (hs : lookupSession st.sessions sid = some sess)
    (hp : sess.pending_speech = some u)
    (hu : strTruthy (strip u) = true) :
    (specDecision r = Decision.transfer →
      (twilio_process_ai st (some sid) (Except.ok r)).script =
        [Verb.say (strip (removeAll TRANSFER_MARKER r)),
         Verb.dial (some 30) (some (transferFallbackUrl sid)) REAL_PHONE_NUMBER]) ∧
    (specDecision r = Decision.endCall →
      (twilio_process_ai st (some sid) (Except.ok r)).script =
        [Verb.say (strip (removeAll END_CALL_MARKER r))]) ∧
    (specDecision r = Decision.cont →
      (twilio_process_ai st (some sid) (Except.ok r)).script =
        [Verb.gather 6 (aiResponseUrl sid 0) (some r),
         Verb.redirect (aiResponseUrl sid 0)]) := by
  simp only [twilio_process_ai, hs, hp, hu, specDecision]
  by_cases h1 : occurs TRANSFER_MARKER r = true
  · simp [h1]
  · by_cases h2 : occurs END_CALL_MARKER r = true
    · simp [h1, h2]
    · simp [h1, h2]

/-- C1 witness: the amended theorem applied at the concrete mid-call
state and the sample transfer reply. -/
theorem C1_amended_witness :
    (twilio_process_ai egStateP (some egTok) (Except.ok egTransferReply)).script =
      [Verb.say (strip (removeAll TRANSFER_MARKER egTransferReply)),
       Verb.dial (some 30) (some (transferFallbackUrl egTok)) REAL_PHONE_NUMBER] :=
  (C1_amended egStateP egTok egSpeech egTransferReply egSessionPending
    (by decide) (by decide) (by decide)).1 (by decide)

/-- C2: a call whose caller has an active allow-list match never creates
a session and never invokes the decision protocol; the handler emits the
direct-transfer script and finalizes the freshly logged call with
final decision `transferred_exception`. -/
theorem C2_allowlist_short_circuit (st : AppState) (caller tok : Str) (e : ExceptionEntry)
    (he : is_exception_phone_number st.db caller = some e)
    (hwf : ∀ c ∈ st.db.calls, c.id ≤ st.db.calls.length) :
    (twilio_voice st caller tok).state.sessions = st.sessions ∧
    (twilio_voice st caller tok).modelInvoked = false ∧
    (twilio_voice st caller tok).script =
      [Verb.say transferringText, Verb.dial none none REAL_PHONE_NUMBER] ∧
    (twilio_voice st caller tok).state.db.calls =
      st.db.calls ++
        [{ id := st.db.calls.length + 1
           caller_id := caller
           start_time := st.now
           end_time := some st.now
           final_decision := some "transferred_exception".toList
           summary := some "Exception contact, direct transfer.".toList
           outcome := some "exception_transfer".toList }] := by
  have he1 : is_exception_phone_number (log_new_call st.db caller st.now).1 caller = some e := he
  simp only [twilio_voice, he1]
  refine ⟨trivial, trivial, trivial, ?_⟩
  simp only [log_new_call, log_final_decision, List.map_append, List.map_cons, List.map_nil]
  congr 1
  refine list_map_id_of _ _ (fun c hc => ?_)
  have h1 : c.id ≤ st.db.calls.length := hwf c hc
  have h2 : ¬ (c.id = st.db.calls.length + 1) := by omega
  simp [h2]

/-- C2 witness: the theorem applied at the allow-list fixture. -/
theorem C2_witness :
    (twilio_voice egStateAllow "(555) 123-4567".toList egTok).state.sessions =
      egStateAllow.sessions ∧
    (twilio_voice egStateAllow "(555) 123-4567".toList egTok).modelInvoked = false :=
  let h := C2_allowlist_short_circuit egStateAllow "(555) 123-4567".toList egTok
    egActiveEntry (by decide) (by decide)
  ⟨h.1, h.2.1⟩

/-- Any successful model reply processed with a valid session and a
non-zero call id appends exactly two conversation rows, in every branch. -/
theorem processAI_ok_turns_len (st : AppState) (sid u : Str) (sess : Session) (r : Str)
    (hs : lookupSession st.sessions sid = some sess)
    (hp : sess.pending_speech = some u)
    (hu : strTruthy (strip u) = true)
    (hc : sess.call_id ≠ 0) :
    ((twilio_process_ai st (some sid) (Except.ok r)).state.db.turns).length =
      st.db.turns.length + 2 := by
  simp only [twilio_process_ai, hs, hp, hu]
  by_cases h1 : occurs TRANSFER_MARKER r = true
  · simp [h1, hc, log_final_decision, log_conversation_turn]
  · by_cases h2 : occurs END_CALL_MARKER r = true
    · simp [h1, h2, hc, log_final_decision, log_conversation_turn]
    · simp [h1, h2, hc, log_conversation_turn]

/-- C3 counterexample: at the concrete mid-call state, a failed model
invocation is not equivalent to processing any substituted fallback reply
containing `\x7bEND CALL\x7d` — every such fallback logs two conversation
rows, while the failure path logs none. -/
theorem C3_counterexample :
    ¬ ∃ fb : Str, occurs END_CALL_MARKER fb = true ∧
      twilio_process_ai egStateP (some egTok) (Except.error ()) =
        twilio_process_ai egStateP (some egTok) (Except.ok fb) := by
  rintro ⟨fb, -, heq⟩
  have h0 : ((twilio_process_ai egStateP (some egTok)
      (Except.error ())).state.db.turns).length = 0 := by decide
  have h2 : ((twilio_process_ai egStateP (some egTok)
      (Except.ok fb)).state.db.turns).length = egStateP.db.turns.length + 2 :=
    processAI_ok_turns_len egStateP egTok egSpeech egSessionPending fb
      (by decide) (by decide) (by decide) (by decide)
  rw [heq] at h0
  rw [h0] at h2
  simp [egStateP, egDBOneCall] at h2

/-- C3 (amended): when the model invocation raises, the exception is
caught by the endpoint's generic handler, which emits the fixed error
script (no gather, so the call ends); no fallback reply is substituted
and nothing is written to the durable store. -/
theorem C3_amended (st : AppState) (sid u : Str) (sess : Session)
    (hs : lookupSession st.sessions sid = some sess)
    (hp : sess.pending_speech = some u)
    (hu : strTruthy (strip u) = true) :
    (twilio_process_ai st (some sid) (Except.error ())).script = errorScript ∧
    (twilio_process_ai st (some sid) (Except.error ())).state.db = st.db ∧
    (twilio_process_ai st (some sid) (Except.error ())).modelInvoked = true := by
  simp only [twilio_process_ai, hs, hp, hu]
  exact ⟨rfl, rfl, rfl⟩

/-- C3 witness: the amended theorem applied at the concrete mid-call
state. -/
theorem C3_amended_witness :
    (twilio_process_ai egStateP (some egTok) (Except.error ())).script = errorScript ∧
    (twilio_process_ai egStateP (some egTok) (Except.error ())).state.db = egStateP.db :=
  let h := C3_amended egStateP egTok egSpeech egSessionPending
    (by decide) (by decide) (by decide)
  ⟨h.1, h.2.1⟩

/-- C4 (code evaluated at the failing input): with the carrier status
`completed` and a session resolving to call 1, whose record was finalized
as `transferred`, the handler emits the silent hangup but still
overwrites the final decision with `transfer_failed_completed` — the
unconditional `log_final_decision` call at src/main.py:388-389 runs
before the status test. -/
theorem C4_completed_status_overwrites :
    egCallTransferred.final_decision = some "transferred".toList ∧
    (twilio_transfer_fallback egStateT (some egTok) "completed".toList).script =
      [Verb.hangup] ∧
    ((twilio_transfer_fallback egStateT (some egTok) "completed".toList).state.db.calls.map
      (fun c => c.final_decision)) = [some "transfer_failed_completed".toList] := by
  decide

/-- C5: with a registered session, an empty-speech callback at retry 0
re-prompts with the callback address carrying retry 1 and leaves the
whole state (store included) untouched; at any non-zero retry the handler
emits only the goodbye script (so there is never a third re-prompt) and
finalizes the call with `ended_no_speech`. -/
theorem C5_no_speech_retry (st : AppState) (sid caller tok : Str) (sess : Session)
    (hs : lookupSession st.sessions sid = some sess)
    (hc : sess.call_id ≠ 0) :
    ((twilio_ai_response st [] caller (some sid) 0 tok).state = st ∧
     (twilio_ai_response st [] caller (some sid) 0 tok).script =
       [Verb.gather 5 (aiResponseUrl sid 1) (some didntHearText),
        Verb.redirect (aiResponseUrl sid 1)]) ∧
    (∀ n : Nat, n ≠ 0 →
      (twilio_ai_response st [] caller (some sid) n tok).script =
        [Verb.say stillDidntHearText] ∧
      (twilio_ai_response st [] caller (some sid) n tok).state.db =
        log_final_decision st.db sess.call_id "ended_no_speech".toList none none st.now ∧
      (twilio_ai_response st [] caller (some sid) n tok).state.sessions = st.sessions) := by
  constructor
  · constructor
    · simp [twilio_ai_response, resolveOrCreate, hs, strTruthy, strip]
    · simp [twilio_ai_response, resolveOrCreate, hs, strTruthy, strip]
  · intro n hn
    refine ⟨?_, ?_, ?_⟩ <;>
      simp [twilio_ai_response, resolveOrCreate, hs, strTruthy, strip, hn, hc]

/-- C5 witness: the theorem applied at the idle mid-call state, at
retry 1. -/
theorem C5_witness :
    (twilio_ai_response egStateIdle [] egCaller (some egTok) 1 egTok2).script =
      [Verb.say stillDidntHearText] :=
  ((C5_no_speech_retry egStateIdle egTok egCaller egTok2 egSessionIdle
    (by decide) (by decide)).2 1 (by decide)).1

/-- C6 counterexample: on the sample urgent call, the transfer branch
persists the system turn with the raw model reply — marker included —
rather than the stripped text the claim describes. -/
theorem C6_counterexample :
    ((twilio_process_ai egStateP (some egTok) (Except.ok egTransferReply)).state.db.turns.map
      (fun t => t.text)) = [egSpeech, egTransferReply] ∧
    occurs TRANSFER_MARKER egTransferReply = true ∧
    egTransferReply ≠ strip (removeAll TRANSFER_MARKER egTransferReply) := by
  decide

/-- C6 (amended): on a transfer reply, the handler emits the stripped
spoken text plus a dial whose failure callback carries the session token,
finalizes the call as `transferred` with the generated summary, and
persists exactly two conversation rows sharing one turn index: the
caller's text and the *raw* reply (marker included). -/
theorem C6_amended (st : AppState) (sid u r : Str) (sess : Session)
    (hs : lookupSession st.sessions sid = some sess)
    (hp : sess.pending_speech = some u)
    (hu : strTruthy (strip u) = true)
    (ht : occurs TRANSFER_MARKER r = true)
    (hc : sess.call_id ≠ 0) :
    (twilio_process_ai st (some sid) (Except.ok r)).script =
      [Verb.say (strip (removeAll TRANSFER_MARKER r)),
       Verb.dial (some 30) (some (transferFallbackUrl sid)) REAL_PHONE_NUMBER] ∧
    (twilio_process_ai st (some sid) (Except.ok r)).state.db.turns =
      st.db.turns ++
        [{ call_id := sess.call_id
           turn_index := (sess.turn_index : Int) - 1
           speaker := "user".toList
           text := u },
         { call_id := sess.call_id
           turn_index := (sess.turn_index : Int) - 1
           speaker := "bot".toList
           text := r }] ∧
    (twilio_process_ai st (some sid) (Except.ok r)).state.db.calls =
      (log_final_decision st.db sess.call_id "transferred".toList
        (some (transferSummary u)) (some "transferred".toList) st.now).calls := by
  simp only [twilio_process_ai, hs, hp, hu, ht]
  refine ⟨?_, ?_, ?_⟩ <;>
    simp [hc, log_final_decision, log_conversation_turn]

/-- C6 witness: the amended theorem applied at the concrete mid-call
state with the sample transfer reply. -/
theorem C6_amended_witness :
    (twilio_process_ai egStateP (some egTok) (Except.ok egTransferReply)).state.db.turns =
      egStateP.db.turns ++
        [{ call_id := egSessionPending.call_id
           turn_index := (egSessionPending.turn_index : Int) - 1
           speaker := "user".toList
           text := egSpeech },
         { call_id := egSessionPending.call_id
           turn_index := (egSessionPending.turn_index : Int) - 1
           speaker := "bot".toList
           text := egTransferReply }] :=
  (C6_amended egStateP egTok egSpeech egTransferReply egSessionPending
    (by decide) (by decide) (by decide) (by decide) (by decide)).2.1

/-- C8 (code evaluated at the failing input): `get_system_prompt` returns
`None` — its body is a bare `return` and the policy text after it is
unreachable — so for every history the request is the history prepended
with a system message whose content is null, never a non-empty policy
text. -/
theorem C8_system_prompt_is_none :
    get_system_prompt = none ∧
    ∀ history : List Message,
      buildRequest history =
        { role := "system".toList, content := none } :: history :=
  ⟨rfl, fun _ => rfl⟩

/-- C8 witness: the theorem applied to the empty history. -/
theorem C8_witness :
    buildRequest [] = [{ role := "system".toList, content := none }] :=
  C8_system_prompt_is_none.2 []

/-- C9 counterexample: with a store whose only matching entry is already
inactive, there is no active match — the claim requires `remove` to
return false — yet the code's UPDATE matches on the number alone and
reports a positive row count, returning true. -/
theorem C9_counterexample :
    is_exception_phone_number egDBInactive "5551234567".toList = none ∧
    (remove_exception_phone_number egDBInactive "5551234567".toList).2 = true := by
  decide

/-- C9 (amended): `remove` returns true iff some entry — active or not —
has the canonical number `normalize(x)`; it soft-deletes every matching
entry, leaving all other stored fields and all non-matching entries (and
the other tables) unchanged. -/
theorem C9_amended (db : DB) (x : Str) :
    ((remove_exception_phone_number db x).2 = true ↔
      ∃ e ∈ db.exceptions, e.phone_number = normalize_phone_number x) ∧
    (remove_exception_phone_number db x).1.exceptions =
      db.exceptions.map (fun e =>
        if e.phone_number = normalize_phone_number x then { e with is_active := false }
        else e) ∧
    (remove_exception_phone_number db x).1.calls = db.calls ∧
    (remove_exception_phone_number db x).1.turns = db.turns := by
  refine ⟨?_, rfl, rfl, rfl⟩
  simp [remove_exception_phone_number, List.countP_pos_iff]

/-- C9 witness: the amended theorem applied at the soft-deleted fixture. -/
theorem C9_amended_witness :
    ((remove_exception_phone_number egDBInactive "5551234567".toList).2 = true ↔
      ∃ e ∈ egDBInactive.exceptions,
        e.phone_number = normalize_phone_number "5551234567".toList) :=
  (C9_amended egDBInactive "5551234567".toList).1

/-- A token that fails lookup is bound by no pair in the registry. -/
theorem lookupSession_none_forall (ss : Sessions) (sid : Str)
    (h : lookupSession ss sid = none) : ∀ p ∈ ss, p.1 ≠ sid := by
  intro p hp
  unfold lookupSession at h
  rw [Option.map_eq_none'] at h
  rw [List.find?_eq_none] at h
  simpa using h p hp

/-- Updating a freshly appended key rewrites only that binding. -/
theorem setSession_append_fresh (ss : Sessions) (tok : Str) (s s2 : Session)
    (h : ∀ p ∈ ss, p.1 ≠ tok) :
    setSession (ss ++ [(tok, s)]) tok s2 = ss ++ [(tok, s2)] := by
  unfold setSession
  rw [List.map_append]
  congr 1
  · exact list_map_id_of _ _ (fun p hp => by simp [h p hp])
  · simp

/-- Looking up a freshly appended key finds its binding. -/
theorem lookupSession_append_fresh (ss : Sessions) (tok : Str) (s : Session)
    (h : ∀ p ∈ ss, p.1 ≠ tok) :
    lookupSession (ss ++ [(tok, s)]) tok = some s := by
  unfold lookupSession
  rw [List.find?_append]
  have h1 : ss.find? (fun p => p.1 = tok) = none :=
    List.find?_eq_none.mpr (fun p hp => by simp [h p hp])
  rw [h1]
  simp [List.find?]

/-- C10: a speech callback whose token is missing or unknown is not
rejected: the handler synthesizes a fresh session at turn index 0 and
logs a brand-new call via the same `log_new_call` operation used at call
start, so the store gains a second `calls` row with its own start time;
the fresh session points at the new row and processing continues
normally. -/
theorem C10_unknown_session_new_call (st : AppState) (u caller tok : Str)
    (sidParam : Option Str) (retry : Nat)
    (hsid : ∀ sid, sidParam = some sid → lookupSession st.sessions sid = none)
    (htok : lookupSession st.sessions tok = none)
    (hu : strTruthy (strip u) = true) :
    (twilio_ai_response st u caller sidParam retry tok).state.db =
      (log_new_call st.db caller st.now).1 ∧
    (twilio_ai_response st u caller sidParam retry tok).state.db.calls.length =
      st.db.calls.length + 1 ∧
    lookupSession (twilio_ai_response st u caller sidParam retry tok).state.sessions tok =
      some { turn_index := 0
             call_id := st.db.calls.length + 1
             pending_speech := some u
             history := [] } ∧
    (twilio_ai_response st u caller sidParam retry tok).script =
      [Verb.say oneMomentText, Verb.redirect (processAiUrl tok)] := by
  have hfresh : ∀ p ∈ st.sessions, p.1 ≠ tok := lookupSession_none_forall _ _ htok
  have hres : resolveOrCreate st sidParam caller tok =
      (tok, sessionNew (st.db.calls.length + 1),
        { sessions := st.sessions ++ [(tok, sessionNew (st.db.calls.length + 1))]
          db := (log_new_call st.db caller st.now).1
          now := st.now }) := by
    cases sidParam with
    | none => rfl
    | some sid =>
      have h := hsid sid rfl
      simp only [resolveOrCreate, h]
      rfl
  simp only [twilio_ai_response, hres, hu, eq_self_iff_true, if_true]
  refine ⟨trivial, ?_, ?_, trivial⟩
  · simp [log_new_call]
  · rw [setSession_append_fresh _ _ _ _ hfresh, lookupSession_append_fresh _ _ _ hfresh]
    rfl

/-- The empty process state at boot. -/
def egStateEmpty : AppState :=
  { sessions := []
    db := { calls := [], turns := [], exceptions := [] }
    now := 0 }

/-- The state reached after an ordinary (non-exception) call start. -/
def egStateAfterVoice : AppState :=
  (twilio_voice egStateEmpty egCaller egTok).state

/-- C10 witness: after a normal call start, a speech callback with an
unknown token yields a second call record. -/
theorem C10_witness :
    (twilio_ai_response egStateAfterVoice egSpeech egCaller (some egTok2) 0
      egTok2).state.db.calls.length = egStateAfterVoice.db.calls.length + 1 :=
  (C10_unknown_session_new_call egStateAfterVoice egSpeech egCaller egTok2 (some egTok2) 0
    (fun sid h => by cases h; decide) (by decide) (by decide)).2.1

/-- C7 witness: the idempotence component applied at the formatted
sample number. -/
theorem C7_witness :
    normalize_phone_number (normalize_phone_number "(555) 123-4567".toList) =
      normalize_phone_number "(555) 123-4567".toList :=
  C7_normalize_idempotent_and_canonical.1 "(555) 123-4567".toList
